import Mathlib

/-!
Verification development for the ATS checker web service (src/app.py).

Strings are modelled as lists of characters (`Str`), so that Python slicing
`s[:3000]` becomes `List.take 3000` and `str.strip()` becomes a dropWhile on
both ends.  The PDF library is modelled by the observable outcome of reading a
file: either opening fails, or it yields a list of per-page extraction results
(each `none` or a string).  The remote generation service is modelled by an
oracle mapping the attempt index to the outcome of that attempt.  The upload
directory is modelled as a list of paths; saving a file is `List.insert` and
deleting is `List.erase`.  Python exceptions that the code catches are
represented by the explicit failure constructors; the Lean functions are total,
which models the guarantee that the embedded functions never propagate an
exception to their caller.
-/

abbrev Str := List Char

/-- The characters removed by Python str.strip with no argument. -/
def isPySpace (c : Char) : Bool :=
  c == ' ' || c == '\t' || c == '\n' || c == '\r' || c == Char.ofNat 11 || c == Char.ofNat 12

/-- Python str.strip: remove leading and trailing whitespace. -/
def pyStrip (s : Str) : Str :=
  ((s.dropWhile isPySpace).reverse.dropWhile isPySpace).reverse

/-- Observable outcome of opening a PDF path with the PDF library:
opening or parsing raises before any page is read, the pages are all
enumerated (each page yielding `none` or some text), or some pages are
enumerated and then the iteration raises. -/
inductive PdfReadResult where
  | openError : PdfReadResult
  | pages : List (Option Str) → PdfReadResult
  | pagesThenError : List (Option Str) → PdfReadResult

/-- One step of the page loop in extract_text_from_pdf:
`if extracted: text += extracted + "\n"` — a page whose extraction result is
None or the empty string contributes nothing. -/
def pageStep (acc : Str) (p : Option Str) : Str :=
  match p with
  | some t => if t = [] then acc else acc ++ t ++ ['\n']
  | none => acc

/-- extract_text_from_pdf (src/app.py lines 29-41): accumulate each truthy
page text followed by a newline; any exception is caught, keeping the text
accumulated so far; the result is stripped.  Totality of this function models
that the Python function never propagates an exception. -/
def extract_text_from_pdf (pdf : PdfReadResult) : Str :=
  match pdf with
  | .openError => pyStrip []
  | .pages ps => pyStrip (ps.foldl pageStep [])
  | .pagesThenError ps => pyStrip (ps.foldl pageStep [])

/-- The fallback string returned when every retry is exhausted
(src/app.py line 93). -/
def overloadedMsg : Str :=
  "Error: AI engine is currently overloaded. Please try again in 30 seconds.".data

/-- Outcome of one attempt at client.models.generate_content: the call raises,
or it returns a response whose text field is `none` or some string.  When the
text field is None, the subsequent `response.text.strip()` raises inside the
try block. -/
inductive AttemptResult where
  | raises : AttemptResult
  | returns : Option Str → AttemptResult

/-- An attempt is a failure for the retry loop unless the call returned a
response with a non-None text field (only then does `return response.text.strip()`
execute without raising). -/
def isFailure : AttemptResult → Bool
  | .returns (some _) => false
  | _ => true

/-- Observable outcome of one run of run_ats_engine: the returned string, the
sequence of sleep durations performed in order, and the number of attempts
(calls to the remote service) made. -/
structure EngineRun where
  result : Str
  sleeps : List Nat
  attempts : Nat
deriving DecidableEq

/-- The hardcoded delay sequence (src/app.py line 81). -/
def delays : List Nat := [1, 2, 4, 8, 16]

/-- The retry loop of run_ats_engine (src/app.py lines 82-93): for each delay
in turn, attempt the remote call; on success return the stripped text, on any
exception sleep for the current delay and continue; when the delays are
exhausted return the fallback string. -/
def atsLoop (oracle : Nat → AttemptResult) : List Nat → Nat → EngineRun
  | [], _ => ⟨overloadedMsg, [], 0⟩
  | d :: ds, i =>
    match oracle i with
    | .returns (some t) => ⟨pyStrip t, [], 1⟩
    | _ =>
      let r := atsLoop oracle ds (i + 1)
      ⟨r.result, d :: r.sleeps, r.attempts + 1⟩

/-- run_ats_engine (src/app.py lines 46-93), with the remote service abstracted
by the oracle.  The prompt is a fixed function of the two inputs, so the oracle
given per request subsumes it. -/
def run_ats_engine (oracle : Nat → AttemptResult) : EngineRun :=
  atsLoop oracle delays 0

/-- Replace every attempt whose response has a None text field by a raising
attempt; used to state that the two failure modes are treated identically. -/
def coerceNone (oracle : Nat → AttemptResult) : Nat → AttemptResult :=
  fun i =>
    match oracle i with
    | .returns none => .raises
    | r => r

/-- A POST /analyze request: an optional resume file part (modelled by the
read outcome of the bytes it saves) and an optional job_description form
field. -/
structure AnalyzeRequest where
  resume : Option PdfReadResult
  job_description : Option Str

/-- The JSON body of a response from /analyze: an error object or the success
object with parsed_resume, parsed_job_description and ats_result fields. -/
inductive RespBody where
  | err : Str → RespBody
  | ok : Str → Str → Str → RespBody
deriving DecidableEq

/-- Observable outcome of one /analyze request: HTTP status, JSON body, how
many times run_ats_engine was invoked, which paths were written to the upload
directory during the request, and the final state of the upload directory. -/
structure AnalyzeResult where
  status : Nat
  body : RespBody
  remoteCalls : Nat
  written : List Str
  dir : List Str
deriving DecidableEq

/-- The path UPLOAD_FOLDER joined with f"{uuid4()}.pdf" for a given uuid string. -/
def uploadPath (uuid : Str) : Str :=
  "uploads/".data ++ uuid ++ ".pdf".data

/-- The /analyze handler (src/app.py lines 105-146).  `uuid` is the value
drawn from uuid.uuid4() for this request and `dir0` the upload directory
contents when the request arrives.  Saving the uploaded file is `List.insert`
(overwriting an existing file of the same name leaves the set of names
unchanged); `os.remove` guarded by `os.path.exists` is the conditional
`List.erase`. -/
def analyze (oracle : Nat → AttemptResult) (uuid : Str) (dir0 : List Str)
    (req : AnalyzeRequest) : AnalyzeResult :=
  match req.resume with
  | none => ⟨400, .err "Resume file missing".data, 0, [], dir0⟩
  | some pdf =>
    let jd_text := pyStrip (req.job_description.getD [])
    if jd_text = [] then
      ⟨400, .err "Job description required".data, 0, [], dir0⟩
    else
      let pdf_path := uploadPath uuid
      let dir1 := dir0.insert pdf_path
      let resume_text := extract_text_from_pdf pdf
      if resume_text = [] then
        ⟨400, .err "Could not extract text from the uploaded PDF".data, 0, [pdf_path],
          if pdf_path ∈ dir1 then dir1.erase pdf_path else dir1⟩
      else
        let run := run_ats_engine oracle
        ⟨200, .ok (resume_text.take 3000) (jd_text.take 3000) run.result, 1, [pdf_path],
          if pdf_path ∈ dir1 then dir1.erase pdf_path else dir1⟩

/-- Spec-side description of the page concatenation, following the wording of
the contract: each page contributes its text followed by a newline, and a page
yielding no text (None or empty) contributes nothing. -/
def pageContribution (p : Option Str) : Str :=
  match p with
  | none => []
  | some t => if t = [] then [] else t ++ ['\n']

/-! ## Helper lemmas -/

lemma foldl_pageStep (ps : List (Option Str)) :
    ∀ acc, ps.foldl pageStep acc = acc ++ (ps.map pageContribution).flatten := by
  induction ps with
  | nil => intro acc; simp
  | cons p ps ih =>
    intro acc
    cases p with
    | none => simp [pageStep, pageContribution, ih]
    | some t =>
      by_cases ht : t = []
      · simp [List.foldl_cons, pageStep, pageContribution, ht, ih]
      · simp [List.foldl_cons, pageStep, pageContribution, ht, ih, List.append_assoc]

lemma atsLoop_attempts_le (oracle : Nat → AttemptResult) :
    ∀ ds i, (atsLoop oracle ds i).attempts ≤ ds.length := by
  intro ds
  induction ds with
  | nil => intro i; simp [atsLoop]
  | cons d ds ih =>
    intro i
    cases h : oracle i with
    | raises =>
      simpa [atsLoop, h] using Nat.succ_le_succ (ih (i + 1))
    | returns t =>
      cases t with
      | none => simpa [atsLoop, h] using Nat.succ_le_succ (ih (i + 1))
      | some s => simp [atsLoop, h]

lemma atsLoop_sleeps_front (oracle : Nat → AttemptResult) :
    ∀ ds i, (atsLoop oracle ds i).sleeps <+: ds := by
  intro ds
  induction ds with
  | nil => intro i; simp [atsLoop]
  | cons d ds ih =>
    intro i
    cases h : oracle i with
    | raises =>
      obtain ⟨t, ht⟩ := ih (i + 1)
      exact ⟨t, by simp [atsLoop, h, ht]⟩
    | returns u =>
      cases u with
      | none =>
        obtain ⟨t, ht⟩ := ih (i + 1)
        exact ⟨t, by simp [atsLoop, h, ht]⟩
      | some s => exact ⟨d :: ds, by simp [atsLoop, h]⟩

lemma atsLoop_all_fail (oracle : Nat → AttemptResult) :
    ∀ ds i, (∀ j, j < ds.length → isFailure (oracle (i + j)) = true) →
      atsLoop oracle ds i = ⟨overloadedMsg, ds, ds.length⟩ := by
  intro ds
  induction ds with
  | nil => intro i _; rfl
  | cons d ds ih =>
    intro i h
    have h0 : isFailure (oracle i) = true := by simpa using h 0 (by simp)
    have hrec : atsLoop oracle ds (i + 1) = ⟨overloadedMsg, ds, ds.length⟩ := by
      refine ih (i + 1) ?_
      intro j hj
      have hstep : i + 1 + j = i + (j + 1) := by omega
      rw [hstep]
      exact h (j + 1) (by simpa using Nat.succ_lt_succ hj)
    cases hcase : oracle i with
    | raises => simp [atsLoop, hcase, hrec]
    | returns t =>
      cases t with
      | none => simp [atsLoop, hcase, hrec]
      | some s => simp [isFailure, hcase] at h0

lemma run_ats_engine_all_fail (oracle : Nat → AttemptResult)
    (h : ∀ i, i < 5 → isFailure (oracle i) = true) :
    run_ats_engine oracle = ⟨overloadedMsg, [1, 2, 4, 8, 16], 5⟩ := by
  have := atsLoop_all_fail oracle delays 0 (by
    intro j hj
    simpa using h j (by simpa [delays] using hj))
  simpa [run_ats_engine, delays] using this

lemma atsLoop_coerce (oracle : Nat → AttemptResult) :
    ∀ ds i, atsLoop oracle ds i = atsLoop (coerceNone oracle) ds i := by
  intro ds
  induction ds with
  | nil => intro i; rfl
  | cons d ds ih =>
    intro i
    cases h : oracle i with
    | raises => simp [atsLoop, h, coerceNone, ih (i + 1)]
    | returns t =>
      cases t with
      | none => simp [atsLoop, h, coerceNone, ih (i + 1)]
      | some s => simp [atsLoop, h, coerceNone]

lemma insert_erase_fresh (p : Str) (d : List Str) (h : p ∉ d) :
    (d.insert p).erase p = d := by
  rw [List.insert_of_not_mem h, List.erase_cons_head]

lemma analyze_success (oracle : Nat → AttemptResult) (uuid : Str) (dir0 : List Str)
    (pdf : PdfReadResult) (jdOpt : Option Str)
    (hr : extract_text_from_pdf pdf ≠ [])
    (hj : pyStrip (jdOpt.getD []) ≠ []) :
    analyze oracle uuid dir0 ⟨some pdf, jdOpt⟩ =
      ⟨200,
        .ok ((extract_text_from_pdf pdf).take 3000) ((pyStrip (jdOpt.getD [])).take 3000)
          (run_ats_engine oracle).result,
        1, [uploadPath uuid], (dir0.insert (uploadPath uuid)).erase (uploadPath uuid)⟩ := by
  simp [analyze, hr, hj, List.mem_insert_self]

lemma analyze_extract_empty (oracle : Nat → AttemptResult) (uuid : Str) (dir0 : List Str)
    (pdf : PdfReadResult) (jdOpt : Option Str)
    (hj : pyStrip (jdOpt.getD []) ≠ [])
    (he : extract_text_from_pdf pdf = []) :
    analyze oracle uuid dir0 ⟨some pdf, jdOpt⟩ =
      ⟨400, .err "Could not extract text from the uploaded PDF".data, 0, [uploadPath uuid],
        (dir0.insert (uploadPath uuid)).erase (uploadPath uuid)⟩ := by
  simp [analyze, hj, he, List.mem_insert_self]

/-! ## Claim theorems -/

/-- Claim C1: if every attempt to call the remote generation service raises,
run_ats_engine returns the literal overload fallback string as a normal value,
and the /analyze handler returns an HTTP 200 success response whose ats_result
field equals that string; remote-service failure never surfaces as an HTTP
error. -/
theorem claim_C1_overload_fallback_is_200 (oracle : Nat → AttemptResult) (uuid : Str)
    (dir0 : List Str) (pdf : PdfReadResult) (jdOpt : Option Str)
    (hr : extract_text_from_pdf pdf ≠ [])
    (hj : pyStrip (jdOpt.getD []) ≠ [])
    (hfail : ∀ i, i < 5 → isFailure (oracle i) = true) :
    (run_ats_engine oracle).result = overloadedMsg ∧
    (analyze oracle uuid dir0 ⟨some pdf, jdOpt⟩).status = 200 ∧
    (analyze oracle uuid dir0 ⟨some pdf, jdOpt⟩).body =
      RespBody.ok ((extract_text_from_pdf pdf).take 3000)
        ((pyStrip (jdOpt.getD [])).take 3000) overloadedMsg := by
  have hrun := run_ats_engine_all_fail oracle hfail
  have hana := analyze_success oracle uuid dir0 pdf jdOpt hr hj
  refine ⟨by rw [hrun], ?_, ?_⟩
  · rw [hana]
  · rw [hana]
    simp [hrun]

/-- Witness for claim C1 at a concrete all-raising oracle, a one-page PDF and
a short job description. -/
theorem claim_C1_overload_fallback_is_200_witness :
    (run_ats_engine (fun _ => AttemptResult.raises)).result = overloadedMsg ∧
    (analyze (fun _ => AttemptResult.raises) ['u'] []
      ⟨some (PdfReadResult.pages [some ['a']]), some ['j']⟩).status = 200 ∧
    (analyze (fun _ => AttemptResult.raises) ['u'] []
      ⟨some (PdfReadResult.pages [some ['a']]), some ['j']⟩).body =
      RespBody.ok ((extract_text_from_pdf (PdfReadResult.pages [some ['a']])).take 3000)
        ((pyStrip ((some ['j']).getD [])).take 3000) overloadedMsg :=
  claim_C1_overload_fallback_is_200 (fun _ => AttemptResult.raises) ['u'] []
    (PdfReadResult.pages [some ['a']]) (some ['j'])
    (by decide) (by decide) (fun i _ => rfl)

/-- Claim C2: run_ats_engine makes at most 5 attempts; the sleeps performed
are an initial segment of the fixed sequence 1, 2, 4, 8, 16 in order, and when
the remote service fails on all 5 attempts the sleeps are exactly that
sequence, totalling 31 seconds, before the fallback string is returned. -/
theorem claim_C2_retry_schedule (oracle : Nat → AttemptResult) :
    (run_ats_engine oracle).attempts ≤ 5 ∧
    (run_ats_engine oracle).sleeps <+: [1, 2, 4, 8, 16] ∧
    ((∀ i, i < 5 → isFailure (oracle i) = true) →
      (run_ats_engine oracle).sleeps = [1, 2, 4, 8, 16] ∧
      (run_ats_engine oracle).sleeps.sum = 31 ∧
      (run_ats_engine oracle).result = overloadedMsg) := by
  refine ⟨?_, ?_, ?_⟩
  · simpa [delays] using atsLoop_attempts_le oracle delays 0
  · simpa [delays] using atsLoop_sleeps_front oracle delays 0
  · intro h
    have hrun := run_ats_engine_all_fail oracle h
    refine ⟨by rw [hrun], by rw [hrun]; rfl, by rw [hrun]⟩

/-- Witness for claim C2 at a concrete all-raising oracle. -/
theorem claim_C2_retry_schedule_witness :
    (run_ats_engine (fun _ => AttemptResult.raises)).attempts ≤ 5 ∧
    (run_ats_engine (fun _ => AttemptResult.raises)).sleeps = [1, 2, 4, 8, 16] ∧
    (run_ats_engine (fun _ => AttemptResult.raises)).sleeps.sum = 31 ∧
    (run_ats_engine (fun _ => AttemptResult.raises)).result = overloadedMsg := by
  have h := claim_C2_retry_schedule (fun _ => AttemptResult.raises)
  exact ⟨h.1, h.2.2 (fun i _ => rfl)⟩

/-- Claim C4: for a PDF whose pages can be enumerated, extract_text_from_pdf
returns the concatenation, in page order, of each page contribution (its text
followed by a newline, nothing for a None or empty page), with the final
concatenation trimmed of leading and trailing whitespace. -/
theorem claim_C4_extract_is_trimmed_concat (ps : List (Option Str)) :
    extract_text_from_pdf (PdfReadResult.pages ps) =
      pyStrip ((ps.map pageContribution).flatten) := by
  simp [extract_text_from_pdf, foldl_pageStep]

/-- Claim C7: when opening or parsing the PDF fails outright, the failure is
caught and the function returns the empty string; the embedding of
extract_text_from_pdf is a total function into strings, modelling that no
exception is ever propagated to the caller. -/
theorem claim_C7_open_failure_returns_empty :
    extract_text_from_pdf PdfReadResult.openError = [] := rfl

/-- Claim C10: an attempt whose response has a None text field is treated
exactly like a raising attempt (run_ats_engine is unchanged when such attempts
are replaced by raising ones), and when every attempt returns a None text
field the fallback overload string is returned after the full sleep sequence;
the function always returns a string, never None and never an exception. -/
theorem claim_C10_none_text_is_transient_failure (oracle : Nat → AttemptResult) :
    run_ats_engine oracle = run_ats_engine (coerceNone oracle) ∧
    ((∀ i, i < 5 → oracle i = AttemptResult.returns none) →
      (run_ats_engine oracle).result = overloadedMsg ∧
      (run_ats_engine oracle).sleeps = [1, 2, 4, 8, 16]) := by
  constructor
  · exact atsLoop_coerce oracle delays 0
  · intro h
    have hfail : ∀ i, i < 5 → isFailure (oracle i) = true := by
      intro i hi
      rw [h i hi]
      rfl
    have hrun := run_ats_engine_all_fail oracle hfail
    exact ⟨by rw [hrun], by rw [hrun]⟩

/-- Witness for claim C10 at the oracle whose every response has a None text
field. -/
theorem claim_C10_none_text_is_transient_failure_witness :
    run_ats_engine (fun _ => AttemptResult.returns none) =
      run_ats_engine (coerceNone (fun _ => AttemptResult.returns none)) ∧
    (run_ats_engine (fun _ => AttemptResult.returns none)).result = overloadedMsg ∧
    (run_ats_engine (fun _ => AttemptResult.returns none)).sleeps = [1, 2, 4, 8, 16] := by
  have h := claim_C10_none_text_is_transient_failure (fun _ => AttemptResult.returns none)
  exact ⟨h.1, h.2 (fun i _ => rfl)⟩

/-- Claim C3: in every 200 response, parsed_resume is the extracted text
truncated to its first 3000 characters (a pure initial segment of the
extracted text) and parsed_job_description is the trimmed job description
truncated to its first 3000 characters; when the trimmed job description is
longer than 3000 characters, parsed_job_description has length exactly 3000. -/
theorem claim_C3_truncation (oracle : Nat → AttemptResult) (uuid : Str) (dir0 : List Str)
    (pdf : PdfReadResult) (jdOpt : Option Str)
    (hr : extract_text_from_pdf pdf ≠ [])
    (hj : pyStrip (jdOpt.getD []) ≠ []) :
    (analyze oracle uuid dir0 ⟨some pdf, jdOpt⟩).status = 200 ∧
    (analyze oracle uuid dir0 ⟨some pdf, jdOpt⟩).body =
      RespBody.ok ((extract_text_from_pdf pdf).take 3000)
        ((pyStrip (jdOpt.getD [])).take 3000) (run_ats_engine oracle).result ∧
    (extract_text_from_pdf pdf).take 3000 <+: extract_text_from_pdf pdf ∧
    (pyStrip (jdOpt.getD [])).take 3000 <+: pyStrip (jdOpt.getD []) ∧
    (3000 < (pyStrip (jdOpt.getD [])).length →
      ((pyStrip (jdOpt.getD [])).take 3000).length = 3000) := by
  have hana := analyze_success oracle uuid dir0 pdf jdOpt hr hj
  refine ⟨by rw [hana], by rw [hana], ?_, ?_, ?_⟩
  · exact ⟨(extract_text_from_pdf pdf).drop 3000, List.take_append_drop 3000 _⟩
  · exact ⟨(pyStrip (jdOpt.getD [])).drop 3000, List.take_append_drop 3000 _⟩
  · intro hlen
    rw [List.length_take]
    omega

/-- Witness for claim C3 at a concrete one-page PDF and job description. -/
theorem claim_C3_truncation_witness :
    (analyze (fun _ => AttemptResult.raises) ['u'] []
      ⟨some (PdfReadResult.pages [some ['a']]), some ['j']⟩).status = 200 ∧
    (analyze (fun _ => AttemptResult.raises) ['u'] []
      ⟨some (PdfReadResult.pages [some ['a']]), some ['j']⟩).body =
      RespBody.ok ((extract_text_from_pdf (PdfReadResult.pages [some ['a']])).take 3000)
        ((pyStrip ((some ['j']).getD [])).take 3000)
        (run_ats_engine (fun _ => AttemptResult.raises)).result ∧
    (extract_text_from_pdf (PdfReadResult.pages [some ['a']])).take 3000 <+:
      extract_text_from_pdf (PdfReadResult.pages [some ['a']]) ∧
    (pyStrip ((some ['j']).getD [])).take 3000 <+: pyStrip ((some ['j']).getD []) ∧
    (3000 < (pyStrip ((some ['j']).getD [])).length →
      ((pyStrip ((some ['j']).getD [])).take 3000).length = 3000) :=
  claim_C3_truncation (fun _ => AttemptResult.raises) ['u'] []
    (PdfReadResult.pages [some ['a']]) (some ['j']) (by decide) (by decide)

/-- Claim C5: when extraction yields the empty string, the handler removes the
saved temp file (the upload directory returns to its initial state), responds
400 with the extraction error text, and never invokes run_ats_engine. -/
theorem claim_C5_extraction_empty_no_remote_call (oracle : Nat → AttemptResult)
    (uuid : Str) (dir0 : List Str) (pdf : PdfReadResult) (jdOpt : Option Str)
    (hj : pyStrip (jdOpt.getD []) ≠ [])
    (he : extract_text_from_pdf pdf = [])
    (hfresh : uploadPath uuid ∉ dir0) :
    analyze oracle uuid dir0 ⟨some pdf, jdOpt⟩ =
      ⟨400, RespBody.err "Could not extract text from the uploaded PDF".data, 0,
        [uploadPath uuid], dir0⟩ := by
  rw [analyze_extract_empty oracle uuid dir0 pdf jdOpt hj he,
    insert_erase_fresh (uploadPath uuid) dir0 hfresh]

/-- Witness for claim C5 at a PDF whose single page yields no text. -/
theorem claim_C5_extraction_empty_no_remote_call_witness :
    analyze (fun _ => AttemptResult.raises) ['u'] [] ⟨some (PdfReadResult.pages [none]), some ['j']⟩ =
      ⟨400, RespBody.err "Could not extract text from the uploaded PDF".data, 0,
        [uploadPath ['u']], []⟩ :=
  claim_C5_extraction_empty_no_remote_call (fun _ => AttemptResult.raises) ['u'] []
    (PdfReadResult.pages [none]) (some ['j']) (by decide) (by decide) (by decide)

/-- Claim C6: a request without a resume file part is answered 400 with error
text "Resume file missing"; a request with a resume part whose job_description
field is absent, empty or whitespace-only after trimming is answered 400 with
error text "Job description required". -/
theorem claim_C6_validation_errors (oracle : Nat → AttemptResult) (uuid : Str)
    (dir0 : List Str) (req : AnalyzeRequest) :
    (req.resume = none →
      analyze oracle uuid dir0 req =
        ⟨400, RespBody.err "Resume file missing".data, 0, [], dir0⟩) ∧
    (∀ pdf, req.resume = some pdf → pyStrip (req.job_description.getD []) = [] →
      analyze oracle uuid dir0 req =
        ⟨400, RespBody.err "Job description required".data, 0, [], dir0⟩) := by
  obtain ⟨res, jd⟩ := req
  constructor
  · intro h
    simp only at h
    subst h
    rfl
  · intro pdf h hjd
    simp only at h
    subst h
    simp only at hjd
    simp [analyze, hjd]

/-- Witness for claim C6: one request with no resume part and one with a
whitespace-only job description. -/
theorem claim_C6_validation_errors_witness :
    analyze (fun _ => AttemptResult.raises) ['u'] [] ⟨none, some ['j']⟩ =
      ⟨400, RespBody.err "Resume file missing".data, 0, [], []⟩ ∧
    analyze (fun _ => AttemptResult.raises) ['u'] []
      ⟨some PdfReadResult.openError, some [' ', ' ']⟩ =
      ⟨400, RespBody.err "Job description required".data, 0, [], []⟩ :=
  ⟨(claim_C6_validation_errors (fun _ => AttemptResult.raises) ['u'] [] ⟨none, some ['j']⟩).1 rfl,
    (claim_C6_validation_errors (fun _ => AttemptResult.raises) ['u'] []
      ⟨some PdfReadResult.openError, some [' ', ' ']⟩).2 PdfReadResult.openError rfl (by decide)⟩

/-- Claim C8: after a 200 success response the uniquely named temp file no
longer exists and the upload directory is exactly as it was before the
request — no other change. -/
theorem claim_C8_temp_file_cleanup (oracle : Nat → AttemptResult) (uuid : Str)
    (dir0 : List Str) (pdf : PdfReadResult) (jdOpt : Option Str)
    (hr : extract_text_from_pdf pdf ≠ [])
    (hj : pyStrip (jdOpt.getD []) ≠ [])
    (hfresh : uploadPath uuid ∉ dir0) :
    (analyze oracle uuid dir0 ⟨some pdf, jdOpt⟩).status = 200 ∧
    (analyze oracle uuid dir0 ⟨some pdf, jdOpt⟩).dir = dir0 ∧
    uploadPath uuid ∉ (analyze oracle uuid dir0 ⟨some pdf, jdOpt⟩).dir := by
  have hana := analyze_success oracle uuid dir0 pdf jdOpt hr hj
  have hdir : (analyze oracle uuid dir0 ⟨some pdf, jdOpt⟩).dir = dir0 := by
    rw [hana]
    exact insert_erase_fresh (uploadPath uuid) dir0 hfresh
  exact ⟨by rw [hana], hdir, by rw [hdir]; exact hfresh⟩

/-- Witness for claim C8 at a concrete request with an empty initial upload
directory. -/
theorem claim_C8_temp_file_cleanup_witness :
    (analyze (fun _ => AttemptResult.raises) ['u'] []
      ⟨some (PdfReadResult.pages [some ['a']]), some ['j']⟩).status = 200 ∧
    (analyze (fun _ => AttemptResult.raises) ['u'] []
      ⟨some (PdfReadResult.pages [some ['a']]), some ['j']⟩).dir = [] ∧
    uploadPath ['u'] ∉ (analyze (fun _ => AttemptResult.raises) ['u'] []
      ⟨some (PdfReadResult.pages [some ['a']]), some ['j']⟩).dir :=
  claim_C8_temp_file_cleanup (fun _ => AttemptResult.raises) ['u'] []
    (PdfReadResult.pages [some ['a']]) (some ['j']) (by decide) (by decide) (by decide)

/-- Claim C9: validation precedes all side effects — a request failing
validation writes no file to the upload directory, never invokes
run_ats_engine, and leaves the upload directory unchanged while returning
400. -/
theorem claim_C9_validation_before_side_effects (oracle : Nat → AttemptResult)
    (uuid : Str) (dir0 : List Str) (req : AnalyzeRequest)
    (h : req.resume = none ∨ pyStrip (req.job_description.getD []) = []) :
    (analyze oracle uuid dir0 req).status = 400 ∧
    (analyze oracle uuid dir0 req).written = [] ∧
    (analyze oracle uuid dir0 req).remoteCalls = 0 ∧
    (analyze oracle uuid dir0 req).dir = dir0 := by
  obtain ⟨res, jd⟩ := req
  cases res with
  | none => exact ⟨rfl, rfl, rfl, rfl⟩
  | some pdf =>
    rcases h with h | h
    · simp at h
    · simp only at h
      simp [analyze, h]

/-- Witness for claim C9 at a request whose job description is absent. -/
theorem claim_C9_validation_before_side_effects_witness :
    (analyze (fun _ => AttemptResult.raises) ['u'] [['f']]
      ⟨some PdfReadResult.openError, none⟩).status = 400 ∧
    (analyze (fun _ => AttemptResult.raises) ['u'] [['f']]
      ⟨some PdfReadResult.openError, none⟩).written = [] ∧
    (analyze (fun _ => AttemptResult.raises) ['u'] [['f']]
      ⟨some PdfReadResult.openError, none⟩).remoteCalls = 0 ∧
    (analyze (fun _ => AttemptResult.raises) ['u'] [['f']]
      ⟨some PdfReadResult.openError, none⟩).dir = [['f']] :=
  claim_C9_validation_before_side_effects (fun _ => AttemptResult.raises) ['u'] [['f']]
    ⟨some PdfReadResult.openError, none⟩ (Or.inr (by decide))
